import Mathlib

/-!
Verification of the STK `BiQuad` coefficient engine (`src/BiQuad.cpp`).

The engine owns five filter coefficients (`b0, b1, b2, a1, a2`, with the
leading denominator coefficient `a0` stored at `a_[0]`), plus the effects it
sends to its collaborators: warnings through `handleError(StkError::WARNING)`
and delay-line resets through `clear()`.  Both effects are modelled as
counters, since the claims only speak about how many of each a call emits.
Floating-point values are modelled as real numbers; the trigonometric
functions of `<cmath>` become `Real.cos` / `Real.tan`.

The headers `BiQuad.h`, `Filter.h` and `Stk.h` are not part of the given
sources; the constants `PI` / `TWO_PI`, the `FilterType` enumeration and the
collaborator interfaces they declare are modelled from the spec, as noted on
each definition.  Everything else is translated directly from `BiQuad.cpp`.
-/

namespace stk

/-- Modelled from the spec: `PI` is declared in the missing `Stk.h`; the spec
writes the `setFilterType` prewarp as `tan(π * frequency / sampleRate)`. -/
noncomputable def PI : ℝ := Real.pi

/-- Modelled from the spec: `TWO_PI` is declared in the missing `Stk.h`; the
spec writes the pole/zero angle as `2π * frequency / sampleRate`. -/
noncomputable def TWO_PI : ℝ := 2 * Real.pi

/-- Modelled from the spec: the `FilterType` enumeration is declared in the
missing `BiQuad.h`.  The five enumerators are those dispatched by the
`switch` in `BiQuad::setFilterType`; `other v` stands for any non-enumerated
underlying value, which the `switch` sends to its `default` branch. -/
inductive FilterType where
  | LowPass
  | HighPass
  | BandPass
  | BandReject
  | AllPass
  | other (v : ℤ)
deriving DecidableEq

/-- State of a `BiQuad` object: the coefficient arrays `b_` and `a_`
(`b0 = b_[0]`, …, `a2 = a_[2]`, with `a0 = a_[0]`), together with the
cumulative number of warnings emitted via `handleError(StkError::WARNING)`
and of delay-line resets requested via `clear()` (both collaborator effects,
modelled from the spec as counters). -/
structure BiQuad where
  b0 : ℝ
  b1 : ℝ
  b2 : ℝ
  a0 : ℝ
  a1 : ℝ
  a2 : ℝ
  warnings : ℕ
  clears : ℕ

/-- `BiQuad::BiQuad()`: both coefficient arrays are zero-filled by
`resize(3, 0.0)`, then `b_[0] = 1.0` and `a_[0] = 1.0`.  No warning or
reset has been emitted yet. -/
def BiQuad.init : BiQuad :=
  { b0 := 1, b1 := 0, b2 := 0, a0 := 1, a1 := 0, a2 := 0,
    warnings := 0, clears := 0 }

/-- `BiQuad::setCoefficients`: assigns `b_[0..2]` and `a_[1..2]` from the
arguments, then calls `clear()` when `clearState` is true. -/
def setCoefficients (s : BiQuad) (b0 b1 b2 a1 a2 : ℝ) (clearState : Bool) :
    BiQuad :=
  let s' := { s with b0 := b0, b1 := b1, b2 := b2, a1 := a1, a2 := a2 }
  if clearState then { s' with clears := s'.clears + 1 } else s'

/-- `BiQuad::sampleRateChanged`: emits one warning unless
`ignoreSampleRateChange_` is set; never touches the coefficients. -/
def sampleRateChanged (ignoreSampleRateChange : Bool) (s : BiQuad) : BiQuad :=
  if ignoreSampleRateChange then s else { s with warnings := s.warnings + 1 }

/-- `BiQuad::setResonance`.  The `debug` flag models the `_STK_DEBUG_`
build option guarding the validation block; `fs` is `Stk::sampleRate()`.
A failed check emits one warning and returns before any mutation. -/
noncomputable def setResonance (debug : Bool) (fs : ℝ) (s : BiQuad)
    (frequency radius : ℝ) (normalize : Bool) : BiQuad :=
  if debug ∧ (frequency < 0 ∨ frequency > 0.5 * fs) then
    { s with warnings := s.warnings + 1 }
  else if debug ∧ (radius < 0 ∨ radius ≥ 1) then
    { s with warnings := s.warnings + 1 }
  else
    let a2' := radius * radius
    let a1' := -2 * radius * Real.cos (TWO_PI * frequency / fs)
    if normalize then
      let b0' := 0.5 - 0.5 * a2'
      { s with a1 := a1', a2 := a2', b0 := b0', b1 := 0, b2 := -b0' }
    else
      { s with a1 := a1', a2 := a2' }

/-- `BiQuad::setNotch`.  Same `_STK_DEBUG_` validation scheme as
`setResonance`, but the radius is only checked to be nonnegative; the body
writes `b_[2]` and `b_[1]` only. -/
noncomputable def setNotch (debug : Bool) (fs : ℝ) (s : BiQuad)
    (frequency radius : ℝ) : BiQuad :=
  if debug ∧ (frequency < 0 ∨ frequency > 0.5 * fs) then
    { s with warnings := s.warnings + 1 }
  else if debug ∧ radius < 0 then
    { s with warnings := s.warnings + 1 }
  else
    { s with b2 := radius * radius,
             b1 := -2 * radius * Real.cos (TWO_PI * frequency / fs) }

/-- The divisor of the intermediate `denom = 1 / (kSqr * Q + K + Q)` in
`BiQuad::setFilterType`, with `K = tan(PI * frequency / fs)` and
`kSqr = K * K`. -/
noncomputable def denomBase (fs frequency Q : ℝ) : ℝ :=
  let K := Real.tan (PI * frequency / fs)
  K * K * Q + K + Q

/-- `BiQuad::setFilterType`.  The `_STK_DEBUG_` block rejects only a
negative `frequency` or a negative `Q`; then `a_[1]` and `a_[2]` are written
from the shared intermediate terms before the `switch` dispatches on the
filter type, whose `default` branch emits one warning. -/
noncomputable def setFilterType (debug : Bool) (fs : ℝ) (s : BiQuad)
    (filterType : FilterType) (frequency Q : ℝ) : BiQuad :=
  if debug ∧ frequency < 0 then
    { s with warnings := s.warnings + 1 }
  else if debug ∧ Q < 0 then
    { s with warnings := s.warnings + 1 }
  else
    let K := Real.tan (PI * frequency / fs)
    let kSqr := K * K
    let denom := 1 / (kSqr * Q + K + Q)
    let s1 := { s with a1 := 2 * Q * (kSqr - 1) * denom,
                       a2 := (kSqr * Q - K + Q) * denom }
    match filterType with
    | FilterType.LowPass =>
        let b0' := kSqr * Q * denom
        { s1 with b0 := b0', b1 := 2 * b0', b2 := b0' }
    | FilterType.HighPass =>
        let b0' := Q * denom
        { s1 with b0 := b0', b1 := -2 * b0', b2 := b0' }
    | FilterType.BandPass =>
        let b0' := K * denom
        { s1 with b0 := b0', b1 := 0, b2 := -b0' }
    | FilterType.BandReject =>
        let b0' := Q * (kSqr + 1) * denom
        { s1 with b0 := b0', b1 := 2 * Q * (kSqr - 1) * denom, b2 := b0' }
    | FilterType.AllPass =>
        { s1 with b0 := s1.a2, b1 := s1.a1, b2 := 1 }
    | FilterType.other _ =>
        { s1 with warnings := s1.warnings + 1 }

/-- `BiQuad::setEqualGainZeroes`: fixed zero placement `b0=1, b1=0, b2=-1`. -/
def setEqualGainZeroes (s : BiQuad) : BiQuad :=
  { s with b0 := 1, b1 := 0, b2 := -1 }

/-- The states a `BiQuad` object can reach: the freshly constructed state,
closed under every mutating operation of the class (with any arguments, any
sample rate and either build mode). -/
inductive Reachable : BiQuad → Prop where
  | init : Reachable BiQuad.init
  | coefficients (s : BiQuad) (b0 b1 b2 a1 a2 : ℝ) (c : Bool) :
      Reachable s → Reachable (setCoefficients s b0 b1 b2 a1 a2 c)
  | resonance (debug : Bool) (fs : ℝ) (s : BiQuad) (f r : ℝ) (n : Bool) :
      Reachable s → Reachable (setResonance debug fs s f r n)
  | notch (debug : Bool) (fs : ℝ) (s : BiQuad) (f r : ℝ) :
      Reachable s → Reachable (setNotch debug fs s f r)
  | filterType (debug : Bool) (fs : ℝ) (s : BiQuad) (t : FilterType)
      (f Q : ℝ) : Reachable s → Reachable (setFilterType debug fs s t f Q)
  | equalGainZeroes (s : BiQuad) :
      Reachable s → Reachable (setEqualGainZeroes s)
  | rateChanged (ig : Bool) (s : BiQuad) :
      Reachable s → Reachable (sampleRateChanged ig s)

end stk

namespace stk

/-- C9: for every prior coefficient state (and independently of any sample
rate), `setEqualGainZeroes()` sets exactly `b0 = 1`, `b1 = 0`, `b2 = -1`,
leaves `a1` and `a2` unchanged, and cannot fail (no warning is emitted). -/
theorem C9_setEqualGainZeroes (s : BiQuad) :
    (setEqualGainZeroes s).b0 = 1 ∧
    (setEqualGainZeroes s).b1 = 0 ∧
    (setEqualGainZeroes s).b2 = -1 ∧
    (setEqualGainZeroes s).a1 = s.a1 ∧
    (setEqualGainZeroes s).a2 = s.a2 ∧
    (setEqualGainZeroes s).warnings = s.warnings := by
  refine ⟨rfl, rfl, rfl, rfl, rfl, rfl⟩

/-- C7: `setCoefficients` assigns exactly the five supplied values, emits no
warning (cannot fail), and sends exactly one state-reset signal when
`clearState` is true and none when it is false. -/
theorem C7_setCoefficients (s : BiQuad) (b0 b1 b2 a1 a2 : ℝ)
    (clearState : Bool) :
    (setCoefficients s b0 b1 b2 a1 a2 clearState).b0 = b0 ∧
    (setCoefficients s b0 b1 b2 a1 a2 clearState).b1 = b1 ∧
    (setCoefficients s b0 b1 b2 a1 a2 clearState).b2 = b2 ∧
    (setCoefficients s b0 b1 b2 a1 a2 clearState).a1 = a1 ∧
    (setCoefficients s b0 b1 b2 a1 a2 clearState).a2 = a2 ∧
    (setCoefficients s b0 b1 b2 a1 a2 clearState).warnings = s.warnings ∧
    (setCoefficients s b0 b1 b2 a1 a2 clearState).clears =
      s.clears + (if clearState then 1 else 0) := by
  cases clearState <;>
    simp [setCoefficients]

/-- C3: for in-range arguments, `setResonance` writes
`a2 = radius²` and `a1 = -2·radius·cos(2π·frequency/fs)`; with
`normalize = true` it additionally writes `b0 = 0.5 - 0.5·a2`, `b1 = 0`,
`b2 = -b0`, and with `normalize = false` it leaves `b0, b1, b2` at their
pre-call values. -/
theorem C3_setResonance (debug : Bool) (fs : ℝ) (s : BiQuad)
    (frequency radius : ℝ) (normalize : Bool)
    (hf0 : 0 ≤ frequency) (hf1 : frequency ≤ 0.5 * fs)
    (hr0 : 0 ≤ radius) (hr1 : radius < 1) :
    (setResonance debug fs s frequency radius normalize).a2 =
      radius * radius ∧
    (setResonance debug fs s frequency radius normalize).a1 =
      -2 * radius * Real.cos (2 * Real.pi * frequency / fs) ∧
    (normalize = true →
      (setResonance debug fs s frequency radius normalize).b0 =
        0.5 - 0.5 * (radius * radius) ∧
      (setResonance debug fs s frequency radius normalize).b1 = 0 ∧
      (setResonance debug fs s frequency radius normalize).b2 =
        -(0.5 - 0.5 * (radius * radius))) ∧
    (normalize = false →
      (setResonance debug fs s frequency radius normalize).b0 = s.b0 ∧
      (setResonance debug fs s frequency radius normalize).b1 = s.b1 ∧
      (setResonance debug fs s frequency radius normalize).b2 = s.b2) := by
  have h1 : ¬((debug : Prop) ∧ (frequency < 0 ∨ frequency > 0.5 * fs)) := by
    rintro ⟨-, h | h⟩
    · exact absurd hf0 (not_le.2 h)
    · exact absurd hf1 (not_le.2 h)
  have h2 : ¬((debug : Prop) ∧ (radius < 0 ∨ radius ≥ 1)) := by
    rintro ⟨-, h | h⟩
    · exact absurd hr0 (not_le.2 h)
    · exact absurd hr1 (not_lt.2 h)
  cases normalize <;>
    simp [setResonance, h1, h2, TWO_PI]

/-- Witness for C3 at the spec's scenario: sampleRate 44100,
`setResonance(1000, 0.9, normalize = true)` in debug mode. -/
theorem C3_setResonance_witness :
    (setResonance true 44100 BiQuad.init 1000 0.9 true).a2 = 0.9 * 0.9 ∧
    (setResonance true 44100 BiQuad.init 1000 0.9 true).a1 =
      -2 * 0.9 * Real.cos (2 * Real.pi * 1000 / 44100) ∧
    (true = true →
      (setResonance true 44100 BiQuad.init 1000 0.9 true).b0 =
        0.5 - 0.5 * (0.9 * 0.9) ∧
      (setResonance true 44100 BiQuad.init 1000 0.9 true).b1 = 0 ∧
      (setResonance true 44100 BiQuad.init 1000 0.9 true).b2 =
        -(0.5 - 0.5 * (0.9 * 0.9))) ∧
    (true = false →
      (setResonance true 44100 BiQuad.init 1000 0.9 true).b0 =
        BiQuad.init.b0 ∧
      (setResonance true 44100 BiQuad.init 1000 0.9 true).b1 =
        BiQuad.init.b1 ∧
      (setResonance true 44100 BiQuad.init 1000 0.9 true).b2 =
        BiQuad.init.b2) :=
  C3_setResonance true 44100 BiQuad.init 1000 0.9 true
    (by norm_num) (by norm_num) (by norm_num) (by norm_num)

/-- C5: for in-range arguments, `setNotch` writes `b2 = radius²` and
`b1 = -2·radius·cos(2π·frequency/fs)` and leaves `b0`, `a1` and `a2` at
their pre-call values (no gain normalization, no warning). -/
theorem C5_setNotch (debug : Bool) (fs : ℝ) (s : BiQuad)
    (frequency radius : ℝ)
    (hf0 : 0 ≤ frequency) (hf1 : frequency ≤ 0.5 * fs) (hr : 0 ≤ radius) :
    (setNotch debug fs s frequency radius).b2 = radius * radius ∧
    (setNotch debug fs s frequency radius).b1 =
      -2 * radius * Real.cos (2 * Real.pi * frequency / fs) ∧
    (setNotch debug fs s frequency radius).b0 = s.b0 ∧
    (setNotch debug fs s frequency radius).a1 = s.a1 ∧
    (setNotch debug fs s frequency radius).a2 = s.a2 ∧
    (setNotch debug fs s frequency radius).warnings = s.warnings := by
  have h1 : ¬((debug : Prop) ∧ (frequency < 0 ∨ frequency > 0.5 * fs)) := by
    rintro ⟨-, h | h⟩
    · exact absurd hf0 (not_le.2 h)
    · exact absurd hf1 (not_le.2 h)
  have h2 : ¬((debug : Prop) ∧ radius < 0) := fun h =>
    absurd hr (not_le.2 h.2)
  simp [setNotch, h1, h2, TWO_PI]

/-- Witness for C5: debug mode, sampleRate 44100, `setNotch(1000, 2)`
(a radius above 1 is accepted for zeroes). -/
theorem C5_setNotch_witness :
    (setNotch true 44100 BiQuad.init 1000 2).b2 = 2 * 2 ∧
    (setNotch true 44100 BiQuad.init 1000 2).b1 =
      -2 * 2 * Real.cos (2 * Real.pi * 1000 / 44100) ∧
    (setNotch true 44100 BiQuad.init 1000 2).b0 = BiQuad.init.b0 ∧
    (setNotch true 44100 BiQuad.init 1000 2).a1 = BiQuad.init.a1 ∧
    (setNotch true 44100 BiQuad.init 1000 2).a2 = BiQuad.init.a2 ∧
    (setNotch true 44100 BiQuad.init 1000 2).warnings =
      BiQuad.init.warnings :=
  C5_setNotch true 44100 BiQuad.init 1000 2
    (by norm_num) (by norm_num) (by norm_num)

/-- C4: for every recognized filter type, `frequency ≥ 0` and `Q > 0`,
`setFilterType` writes `a1 = 2Q(kSqr-1)·denom`, `a2 = (kSqr·Q-K+Q)·denom`
and the per-type numerator table (LowPass, HighPass, BandPass, BandReject,
AllPass), where `K = tan(π·frequency/fs)`, `kSqr = K²` and
`denom = 1/(kSqr·Q+K+Q)`. -/
theorem C4_setFilterType (debug : Bool) (fs : ℝ) (s : BiQuad)
    (frequency Q : ℝ) (hf : 0 ≤ frequency) (hQ : 0 < Q) :
    let K := Real.tan (Real.pi * frequency / fs)
    let kSqr := K * K
    let denom := 1 / (kSqr * Q + K + Q)
    let lp := setFilterType debug fs s FilterType.LowPass frequency Q
    let hp := setFilterType debug fs s FilterType.HighPass frequency Q
    let bp := setFilterType debug fs s FilterType.BandPass frequency Q
    let br := setFilterType debug fs s FilterType.BandReject frequency Q
    let ap := setFilterType debug fs s FilterType.AllPass frequency Q
    (lp.a1 = 2 * Q * (kSqr - 1) * denom ∧
      lp.a2 = (kSqr * Q - K + Q) * denom ∧
      lp.b0 = kSqr * Q * denom ∧ lp.b1 = 2 * lp.b0 ∧ lp.b2 = lp.b0) ∧
    (hp.a1 = 2 * Q * (kSqr - 1) * denom ∧
      hp.a2 = (kSqr * Q - K + Q) * denom ∧
      hp.b0 = Q * denom ∧ hp.b1 = -2 * hp.b0 ∧ hp.b2 = hp.b0) ∧
    (bp.a1 = 2 * Q * (kSqr - 1) * denom ∧
      bp.a2 = (kSqr * Q - K + Q) * denom ∧
      bp.b0 = K * denom ∧ bp.b1 = 0 ∧ bp.b2 = -bp.b0) ∧
    (br.a1 = 2 * Q * (kSqr - 1) * denom ∧
      br.a2 = (kSqr * Q - K + Q) * denom ∧
      br.b0 = Q * (kSqr + 1) * denom ∧
      br.b1 = 2 * Q * (kSqr - 1) * denom ∧ br.b2 = br.b0) ∧
    (ap.a1 = 2 * Q * (kSqr - 1) * denom ∧
      ap.a2 = (kSqr * Q - K + Q) * denom ∧
      ap.b0 = ap.a2 ∧ ap.b1 = ap.a1 ∧ ap.b2 = 1) := by
  have h1 : ¬((debug : Prop) ∧ frequency < 0) := fun h =>
    absurd hf (not_le.2 h.2)
  have h2 : ¬((debug : Prop) ∧ Q < 0) := fun h =>
    absurd hQ.le (not_le.2 h.2)
  simp [setFilterType, h1, h2, PI]

/-- Witness for C4: debug mode, sampleRate 44100, `frequency = 11025`,
`Q = 1`. -/
theorem C4_setFilterType_witness :
    let K := Real.tan (Real.pi * 11025 / 44100)
    let kSqr := K * K
    let denom := 1 / (kSqr * 1 + K + 1)
    let lp := setFilterType true 44100 BiQuad.init FilterType.LowPass 11025 1
    let hp := setFilterType true 44100 BiQuad.init FilterType.HighPass 11025 1
    let bp := setFilterType true 44100 BiQuad.init FilterType.BandPass 11025 1
    let br :=
      setFilterType true 44100 BiQuad.init FilterType.BandReject 11025 1
    let ap := setFilterType true 44100 BiQuad.init FilterType.AllPass 11025 1
    (lp.a1 = 2 * 1 * (kSqr - 1) * denom ∧
      lp.a2 = (kSqr * 1 - K + 1) * denom ∧
      lp.b0 = kSqr * 1 * denom ∧ lp.b1 = 2 * lp.b0 ∧ lp.b2 = lp.b0) ∧
    (hp.a1 = 2 * 1 * (kSqr - 1) * denom ∧
      hp.a2 = (kSqr * 1 - K + 1) * denom ∧
      hp.b0 = 1 * denom ∧ hp.b1 = -2 * hp.b0 ∧ hp.b2 = hp.b0) ∧
    (bp.a1 = 2 * 1 * (kSqr - 1) * denom ∧
      bp.a2 = (kSqr * 1 - K + 1) * denom ∧
      bp.b0 = K * denom ∧ bp.b1 = 0 ∧ bp.b2 = -bp.b0) ∧
    (br.a1 = 2 * 1 * (kSqr - 1) * denom ∧
      br.a2 = (kSqr * 1 - K + 1) * denom ∧
      br.b0 = 1 * (kSqr + 1) * denom ∧
      br.b1 = 2 * 1 * (kSqr - 1) * denom ∧ br.b2 = br.b0) ∧
    (ap.a1 = 2 * 1 * (kSqr - 1) * denom ∧
      ap.a2 = (kSqr * 1 - K + 1) * denom ∧
      ap.b0 = ap.a2 ∧ ap.b1 = ap.a1 ∧ ap.b2 = 1) :=
  C4_setFilterType true 44100 BiQuad.init 11025 1 (by norm_num) (by norm_num)

/-- C6: in debug mode, a `setResonance` call with `frequency` outside
`[0, fs/2]` or `radius` outside `[0, 1)`, and a `setNotch` call with
`frequency` outside `[0, fs/2]` or `radius < 0`, emit one warning and leave
all five coefficients at their pre-call values. -/
theorem C6_debug_validation (fs : ℝ) (s : BiQuad) (frequency radius : ℝ)
    (normalize : Bool) :
    (frequency < 0 ∨ frequency > 0.5 * fs ∨ radius < 0 ∨ radius ≥ 1 →
      (setResonance true fs s frequency radius normalize).b0 = s.b0 ∧
      (setResonance true fs s frequency radius normalize).b1 = s.b1 ∧
      (setResonance true fs s frequency radius normalize).b2 = s.b2 ∧
      (setResonance true fs s frequency radius normalize).a1 = s.a1 ∧
      (setResonance true fs s frequency radius normalize).a2 = s.a2 ∧
      (setResonance true fs s frequency radius normalize).warnings =
        s.warnings + 1) ∧
    (frequency < 0 ∨ frequency > 0.5 * fs ∨ radius < 0 →
      (setNotch true fs s frequency radius).b0 = s.b0 ∧
      (setNotch true fs s frequency radius).b1 = s.b1 ∧
      (setNotch true fs s frequency radius).b2 = s.b2 ∧
      (setNotch true fs s frequency radius).a1 = s.a1 ∧
      (setNotch true fs s frequency radius).a2 = s.a2 ∧
      (setNotch true fs s frequency radius).warnings = s.warnings + 1) := by
  constructor
  · intro h
    by_cases hc1 : frequency < 0 ∨ frequency > 0.5 * fs
    · simp [setResonance, hc1]
    · have hc2 : radius < 0 ∨ radius ≥ 1 := by
        rcases h with h | h | h | h
        · exact absurd (Or.inl h) hc1
        · exact absurd (Or.inr h) hc1
        · exact Or.inl h
        · exact Or.inr h
      simp [setResonance, hc1, hc2]
  · intro h
    by_cases hc1 : frequency < 0 ∨ frequency > 0.5 * fs
    · simp [setNotch, hc1]
    · have hc2 : radius < 0 := by
        rcases h with h | h | h
        · exact absurd (Or.inl h) hc1
        · exact absurd (Or.inr h) hc1
        · exact h
      simp [setNotch, hc1, hc2]

/-- Witness for C6: sampleRate 44100, `frequency = -10`, `radius = 0.5`
(the out-of-range frequency of the spec's example). -/
theorem C6_debug_validation_witness :
    ((setResonance true 44100 BiQuad.init (-10) 0.5 true).b0 =
        BiQuad.init.b0 ∧
      (setResonance true 44100 BiQuad.init (-10) 0.5 true).b1 =
        BiQuad.init.b1 ∧
      (setResonance true 44100 BiQuad.init (-10) 0.5 true).b2 =
        BiQuad.init.b2 ∧
      (setResonance true 44100 BiQuad.init (-10) 0.5 true).a1 =
        BiQuad.init.a1 ∧
      (setResonance true 44100 BiQuad.init (-10) 0.5 true).a2 =
        BiQuad.init.a2 ∧
      (setResonance true 44100 BiQuad.init (-10) 0.5 true).warnings =
        BiQuad.init.warnings + 1) ∧
    ((setNotch true 44100 BiQuad.init (-10) 0.5).b0 = BiQuad.init.b0 ∧
      (setNotch true 44100 BiQuad.init (-10) 0.5).b1 = BiQuad.init.b1 ∧
      (setNotch true 44100 BiQuad.init (-10) 0.5).b2 = BiQuad.init.b2 ∧
      (setNotch true 44100 BiQuad.init (-10) 0.5).a1 = BiQuad.init.a1 ∧
      (setNotch true 44100 BiQuad.init (-10) 0.5).a2 = BiQuad.init.a2 ∧
      (setNotch true 44100 BiQuad.init (-10) 0.5).warnings =
        BiQuad.init.warnings + 1) :=
  ⟨(C6_debug_validation 44100 BiQuad.init (-10) 0.5 true).1
      (Or.inl (by norm_num)),
    (C6_debug_validation 44100 BiQuad.init (-10) 0.5 true).2
      (Or.inl (by norm_num))⟩

/-- C8: `a0` is set to exactly 1 at construction and no operation ever
writes it, so `a0 = 1` holds in every reachable state. -/
theorem C8_a0_invariant (s : BiQuad) (h : Reachable s) : s.a0 = 1 := by
  induction h with
  | init => rfl
  | coefficients s b0 b1 b2 a1 a2 c _ ih =>
      cases c <;> simpa [setCoefficients] using ih
  | resonance debug fs s f r n _ ih =>
      unfold setResonance
      repeat' split
      all_goals exact ih
  | notch debug fs s f r _ ih =>
      unfold setNotch
      repeat' split
      all_goals exact ih
  | filterType debug fs s t f Q _ ih =>
      unfold setFilterType
      repeat' split
      all_goals exact ih
  | equalGainZeroes s _ ih =>
      simpa [setEqualGainZeroes] using ih
  | rateChanged ig s _ ih =>
      cases ig <;> simpa [sampleRateChanged] using ih

/-- Witness for C8: the freshly constructed state is reachable and has
`a0 = 1`. -/
theorem C8_a0_invariant_witness :
    Reachable BiQuad.init ∧ BiQuad.init.a0 = 1 :=
  ⟨Reachable.init, C8_a0_invariant BiQuad.init Reachable.init⟩

/-- C10: on an unrecognized filter type, `setFilterType` leaves `b0, b1, b2`
at their pre-call values but still overwrites `a1` and `a2` with the shared
intermediate formulas, computed from the supplied `frequency` and `Q` before
the type is dispatched. -/
theorem C10_unrecognized_overwrites_poles (debug : Bool) (fs : ℝ)
    (s : BiQuad) (v : ℤ) (frequency Q : ℝ)
    (hf : 0 ≤ frequency) (hQ : 0 ≤ Q) :
    let K := Real.tan (Real.pi * frequency / fs)
    let denom := 1 / (K * K * Q + K + Q)
    (setFilterType debug fs s (FilterType.other v) frequency Q).a1 =
      2 * Q * (K * K - 1) * denom ∧
    (setFilterType debug fs s (FilterType.other v) frequency Q).a2 =
      (K * K * Q - K + Q) * denom ∧
    (setFilterType debug fs s (FilterType.other v) frequency Q).b0 = s.b0 ∧
    (setFilterType debug fs s (FilterType.other v) frequency Q).b1 = s.b1 ∧
    (setFilterType debug fs s (FilterType.other v) frequency Q).b2 =
      s.b2 := by
  have h1 : ¬((debug : Prop) ∧ frequency < 0) := fun h =>
    absurd hf (not_le.2 h.2)
  have h2 : ¬((debug : Prop) ∧ Q < 0) := fun h =>
    absurd hQ (not_le.2 h.2)
  simp [setFilterType, h1, h2, PI]

/-- Witness for C10: debug mode, sampleRate 44100, unrecognized type value
3, `frequency = 11025`, `Q = 2`. -/
theorem C10_unrecognized_overwrites_poles_witness :
    let K := Real.tan (Real.pi * 11025 / 44100)
    let denom := 1 / (K * K * 2 + K + 2)
    (setFilterType true 44100 BiQuad.init (FilterType.other 3)
        11025 2).a1 = 2 * 2 * (K * K - 1) * denom ∧
    (setFilterType true 44100 BiQuad.init (FilterType.other 3)
        11025 2).a2 = (K * K * 2 - K + 2) * denom ∧
    (setFilterType true 44100 BiQuad.init (FilterType.other 3)
        11025 2).b0 = BiQuad.init.b0 ∧
    (setFilterType true 44100 BiQuad.init (FilterType.other 3)
        11025 2).b1 = BiQuad.init.b1 ∧
    (setFilterType true 44100 BiQuad.init (FilterType.other 3)
        11025 2).b2 = BiQuad.init.b2 :=
  C10_unrecognized_overwrites_poles true 44100 BiQuad.init 3 11025 2
    (by norm_num) (by norm_num)

/-- Counterexample to C1 as stated: in debug mode at sampleRate 44100,
calling `setFilterType` on the fresh state with the unrecognized type value
99, `frequency = 11025` and `Q = 1` changes `a2` (from 0 to 1/3), so not
all five coefficients are left at their pre-call values. -/
theorem C1_counterexample :
    (setFilterType true 44100 BiQuad.init (FilterType.other 99)
        11025 1).a2 ≠ BiQuad.init.a2 := by
  have htan : Real.tan (PI * 11025 / 44100) = 1 := by
    have harg : (PI * 11025 / 44100 : ℝ) = Real.pi / 4 := by
      unfold PI; ring
    rw [harg, Real.tan_pi_div_four]
  have h1 : ¬(((true : Bool) : Prop) ∧ (11025 : ℝ) < 0) := by norm_num
  have h2 : ¬(((true : Bool) : Prop) ∧ (1 : ℝ) < 0) := by norm_num
  simp only [setFilterType, h1, h2, if_false, htan]
  norm_num [BiQuad.init]

/-- C1 amended: on an unrecognized filter type (with arguments passing the
debug checks), `setFilterType` leaves the numerator coefficients
`b0, b1, b2` at their pre-call values and emits exactly one warning — but
the denominator coefficients `a1, a2` are overwritten (see C10), so only
three of the five coefficients are preserved. -/
theorem C1_amended_unrecognized (debug : Bool) (fs : ℝ) (s : BiQuad)
    (v : ℤ) (frequency Q : ℝ) (hf : 0 ≤ frequency) (hQ : 0 ≤ Q) :
    (setFilterType debug fs s (FilterType.other v) frequency Q).b0 = s.b0 ∧
    (setFilterType debug fs s (FilterType.other v) frequency Q).b1 = s.b1 ∧
    (setFilterType debug fs s (FilterType.other v) frequency Q).b2 = s.b2 ∧
    (setFilterType debug fs s (FilterType.other v) frequency Q).warnings =
      s.warnings + 1 := by
  have h1 : ¬((debug : Prop) ∧ frequency < 0) := fun h =>
    absurd hf (not_le.2 h.2)
  have h2 : ¬((debug : Prop) ∧ Q < 0) := fun h =>
    absurd hQ (not_le.2 h.2)
  simp [setFilterType, h1, h2]

/-- Witness for the amended C1: debug mode, sampleRate 44100, unrecognized
type value 7, `frequency = 0`, `Q = 1`. -/
theorem C1_amended_unrecognized_witness :
    (setFilterType true 44100 BiQuad.init (FilterType.other 7) 0 1).b0 =
      BiQuad.init.b0 ∧
    (setFilterType true 44100 BiQuad.init (FilterType.other 7) 0 1).b1 =
      BiQuad.init.b1 ∧
    (setFilterType true 44100 BiQuad.init (FilterType.other 7) 0 1).b2 =
      BiQuad.init.b2 ∧
    (setFilterType true 44100 BiQuad.init (FilterType.other 7)
        0 1).warnings = BiQuad.init.warnings + 1 :=
  C1_amended_unrecognized true 44100 BiQuad.init 7 0 1
    (by norm_num) (by norm_num)

/-- Counterexample to C2 as stated: with `Q = 0` but `frequency = 11025` at
sampleRate 44100 (so `K = tan(π/4) = 1`), the divisor of `denom` equals 1,
not 0 — no division by zero occurs, and the call computes the well-defined
value `a2 = -1`.  So `Q = 0` does not divide by zero for every frequency
passing the non-negativity check. -/
theorem C2_counterexample :
    denomBase 44100 11025 0 ≠ 0 ∧
    (setFilterType true 44100 BiQuad.init FilterType.LowPass
        11025 0).a2 = -1 := by
  have htan : Real.tan (PI * 11025 / 44100) = 1 := by
    have harg : (PI * 11025 / 44100 : ℝ) = Real.pi / 4 := by
      unfold PI; ring
    rw [harg, Real.tan_pi_div_four]
  have h1 : ¬(((true : Bool) : Prop) ∧ (11025 : ℝ) < 0) := by norm_num
  have h2 : ¬(((true : Bool) : Prop) ∧ (0 : ℝ) < 0) := by norm_num
  constructor
  · simp only [denomBase, htan]
    norm_num
  · simp only [setFilterType, h1, h2, if_false, htan]
    norm_num

/-- C2 amended: the division by zero in `denom` occurs when the divisor
`kSqr·Q + K + Q` vanishes; with `Q = 0` this happens exactly when
`K = tan(π·frequency/fs)` is zero — in particular at `frequency = 0` — and
the case is not detected or guarded: the debug checks accept `Q = 0`, no
warning is emitted, and the call proceeds into the coefficient formulas
with the zero divisor. -/
theorem C2_amended_div_by_zero (fs : ℝ) (s : BiQuad) :
    denomBase fs 0 0 = 0 ∧
    (setFilterType true fs s FilterType.LowPass 0 0).warnings =
      s.warnings := by
  have htan : Real.tan (PI * 0 / fs) = 0 := by
    rw [mul_zero, zero_div, Real.tan_zero]
  have h1 : ¬(((true : Bool) : Prop) ∧ (0 : ℝ) < 0) := by norm_num
  constructor
  · simp only [denomBase, htan]
    ring
  · simp only [setFilterType, h1, if_false, htan]
    norm_num

end stk
